import Mathlib

/-
Shallow embedding of the billy-client library (billy_client/api.py): a thin
HTTP client for a recurring-billing service.  Pure Lean functions model each
Python method; the single blocking HTTP round-trip of an operation is modelled
by passing the server's `Response` as an explicit argument, and the operation
returns the `Request` it would have sent together with its result.  Python
exceptions become `Except` values.
-/

/-- Decidable equality for `Except`, so theorems about the embedded
operations can be checked on concrete inputs. -/
instance {ε α : Type} [DecidableEq ε] [DecidableEq α] : DecidableEq (Except ε α) := fun a b =>
  match a, b with
  | .ok x, .ok y =>
    if h : x = y then .isTrue (h ▸ rfl) else .isFalse fun hc => h (Except.ok.inj hc)
  | .error x, .error y =>
    if h : x = y then .isTrue (h ▸ rfl) else .isFalse fun hc => h (Except.error.inj hc)
  | .ok _, .error _ => .isFalse fun hc => Except.noConfusion hc
  | .error _, .ok _ => .isFalse fun hc => Except.noConfusion hc

/-- JSON scalar values as they appear in decoded response bodies and in
submitted form fields. -/
inductive Json where
  | str : String → Json
  | num : Int → Json
  | jbool : Bool → Json
  | null : Json
  deriving DecidableEq, Repr

/-- Python `str()` of a JSON scalar, as used by `'...{}...'.format(self.guid)`
in `Subscription.unsubscribe` (api.py line 145). -/
def Json.pyStr : Json → String
  | .str s => s
  | .num n => toString n
  | .jbool b => if b then "True" else "False"
  | .null => "None"

/-- Python truthiness of a JSON scalar (`if refund_amount:` at api.py
line 149): None, 0, and the empty string are falsy. -/
def Json.truthy : Json → Bool
  | .str s => s ≠ ""
  | .num n => n ≠ 0
  | .jbool b => b
  | .null => false

/-- A decoded JSON object body / a form-data dict: association list in
insertion order. -/
abbrev JsonObj := List (String × Json)

/-- First-match key lookup in an association list (Python `d[key]`). -/
def assoc : JsonObj → String → Option Json
  | [], _ => none
  | (k, v) :: rest, key => if k = key then some v else assoc rest key

/-- The exception classes of api.py: `BillyError(RuntimeError)` (line 8) and
`BillyNotFoundError(BillyError)` (line 14). -/
inductive ExcClass where
  | runtimeError
  | billyError
  | billyNotFoundError
  deriving DecidableEq, Repr

/-- Direct base class of each exception class, as declared in api.py. -/
def ExcClass.base : ExcClass → Option ExcClass
  | .runtimeError => none
  | .billyError => some .runtimeError
  | .billyNotFoundError => some .billyError

/-- The inheritance chain of a class, walked through `base` with enough fuel
for the three-class hierarchy. -/
def ExcClass.ancestorsAux : Nat → Option ExcClass → List ExcClass
  | 0, _ => []
  | _, none => []
  | n + 1, some c => c :: ExcClass.ancestorsAux n c.base

/-- Python `issubclass`: reflexive-transitive closure of `base`. -/
def ExcClass.isSubclassOf (c d : ExcClass) : Bool :=
  d ∈ ExcClass.ancestorsAux 3 (some c)

/-- A raised Billy exception: its class, the formatted message, and the two
extra positional arguments `resp.status_code` and `resp.content` that both
`raise` sites in `_check_response` pass (api.py lines 189-200). -/
structure BillyExc where
  cls : ExcClass
  message : String
  status_code : Nat
  content : String
  deriving DecidableEq, Repr

/-- An HTTP response as the client observes it: numeric status code, raw body
(`resp.content`), and decoded JSON body (`resp.json()`). -/
structure Response where
  status_code : Nat
  content : String
  json : JsonObj
  deriving DecidableEq, Repr

/-- `requests.codes.ok` -/
def requests_codes_ok : Nat := 200

/-- `requests.codes.not_found` -/
def requests_codes_not_found : Nat := 404

/-- `BillyAPI._check_response` (api.py lines 183-200): non-200 raises; 404
raises `BillyNotFoundError`, any other non-200 raises `BillyError`; both
messages embed the method name, status code and raw body (note the missing
space after `msg` in the 404 message, as in the source format string). -/
def check_response (method_name : String) (resp : Response) : Except BillyExc Unit :=
  if resp.status_code ≠ requests_codes_ok then
    if resp.status_code = requests_codes_not_found then
      .error ⟨.billyNotFoundError,
        "No such record for " ++ method_name ++ " with code "
          ++ toString resp.status_code ++ ", msg" ++ resp.content,
        resp.status_code, resp.content⟩
    else
      .error ⟨.billyError,
        "Failed to process " ++ method_name ++ " with code "
          ++ toString resp.status_code ++ ", msg " ++ resp.content,
        resp.status_code, resp.content⟩
  else
    .ok ()

/-- Client state: `BillyAPI.__init__` stores the credential and the endpoint
(api.py lines 164-172; the logger plays no part in any operation's result). -/
structure BillyAPI where
  api_key : String
  endpoint : String
  deriving DecidableEq, Repr

/-- `BillyAPI._auth_args` (api.py lines 180-181): HTTP basic auth with the
active credential as user name and an empty password. -/
def auth_args (api : BillyAPI) : Option (String × String) :=
  some (api.api_key, "")

/-- Which Python class a resource wrapper was constructed with
(`Resource` and its four subclasses). -/
inductive RKind where
  | resource
  | company
  | customer
  | plan
  | subscription
  deriving DecidableEq, Repr

/-- `Resource.__init__` (api.py lines 24-26): a wrapper holds a back-reference
to the client and the decoded JSON mapping, plus the class it was built as. -/
structure Resource where
  kind : RKind
  api : BillyAPI
  json_data : JsonObj
  deriving DecidableEq, Repr

/-- A Python error surfaced by the embedded operations. `attributeError`
models `AttributeError`; `keyError` models `KeyError` (kept distinct so the
two lookup failures are distinguishable); `billy e` models a raised Billy
exception. -/
inductive PyErr where
  | attributeError
  | keyError
  | billy : BillyExc → PyErr
  deriving DecidableEq, Repr

/-- The value produced by reading an attribute of a `Resource`: the client
back-reference (`self.api`), the raw mapping (`self.json_data`), a name
resolved in class scope (a bound method, one of `Plan`'s constants, or an
attribute inherited from builtin `object` — carried by name only, its value
is outside the embedding), or a JSON field value forwarded from the
mapping. -/
inductive Attr where
  | ref : BillyAPI → Attr
  | dict : JsonObj → Attr
  | cls : String → Attr
  | json : Json → Attr
  deriving DecidableEq, Repr

/-- The attribute names class `Resource` defines in api.py (lines 24-38):
its methods, inherited by all four subclasses. -/
def resourceClassAttrNames : List String :=
  ["__init__", "__unicode__", "__str__", "__getattr__"]

/-- The attribute names each wrapper class defines in api.py or inherits
from the source classes: `Company.create_customer`/`create_plan`
(lines 46-71), `Plan`'s frequency/type constants and `subscribe`
(lines 84-133), `Subscription.unsubscribe` (lines 141-153), plus the
`Resource` methods. -/
def classAttrNames : RKind → List String
  | .resource => resourceClassAttrNames
  | .company => ["create_customer", "create_plan"] ++ resourceClassAttrNames
  | .customer => resourceClassAttrNames
  | .plan =>
      ["FREQ_DAILY", "FREQ_WEEKLY", "FREQ_MONTHLY", "FREQ_YEARLY", "FREQ_ALL",
       "TYPE_CHARGE", "TYPE_PAYOUT", "TYPE_ALL", "subscribe"]
        ++ resourceClassAttrNames
  | .subscription => ["unsubscribe"] ++ resourceClassAttrNames

/-- A dunder name (`__...__`). Every attribute a new-style class inherits
from builtin `object` (`__class__`, `__repr__`, `__setattr__`, ...) is a
dunder name; the exact inherited set is a property of the Python runtime,
not of api.py. -/
def isDunder (key : String) : Bool :=
  decide (key.data.take 2 = ['_', '_']) && decide (key.data.reverse.take 2 = ['_', '_'])

/-- A name resolved in class scope before `__getattr__` is consulted: the
attributes the source classes define, and — conservatively — any dunder
name, since those may be inherited from builtin `object`. The embedding
makes no claim about the values such names resolve to. -/
def classScope (kind : RKind) (key : String) : Bool :=
  key ∈ classAttrNames kind || isDunder key

/-- `Resource.__getattr__` (api.py lines 34-38): try `self.json_data[key]`;
on `KeyError` the fallback line `super(Resource. self).__getattre__(key)`
first evaluates the class-attribute access `Resource.self`, which raises
`AttributeError` (the class has no attribute `self`), so a missing key
surfaces as `AttributeError`, never as the caught `KeyError`. -/
def Resource.getattr (r : Resource) (key : String) : Except PyErr Json :=
  match assoc r.json_data key with
  | some v => .ok v
  | none => .error .attributeError

/-- Full Python attribute read `res.key`: normal lookup finds the instance
attributes `api` and `json_data` set by `__init__` and any name resolved in
class scope (methods, `Plan`'s constants, `object`-inherited dunders) before
`__getattr__` is ever consulted; only a name outside all of those falls
through to `__getattr__`. The two instance attributes and the class-scope
names are disjoint, so their relative order does not matter. -/
def Resource.attribute (r : Resource) (key : String) : Except PyErr Attr :=
  if key = "api" then .ok (.ref r.api)
  else if key = "json_data" then .ok (.dict r.json_data)
  else if classScope r.kind key then .ok (.cls key)
  else (r.getattr key).map .json

/-- HTTP method of an issued request. -/
inductive Method where
  | get
  | post
  deriving DecidableEq, Repr

/-- A request as the client builds it: method, path (resolved against the
endpoint by `_url_for`), the `auth=` argument if any, the form data, and the
offset/limit query parameters used by the list endpoints. -/
structure Request where
  method : Method
  path : String
  auth : Option (String × String)
  data : JsonObj
  query : Option (Nat × Nat)
  deriving DecidableEq, Repr

/-- `BillyAPI.create_company` (api.py lines 202-210): POST the processor key
as the sole form field to `/v1/companies` with no `auth=` argument; then
`_check_response` (which raises on non-200 before anything else happens);
only then assign `self.api_key = processor_key` and return a `Company`
wrapping `resp.json()`.  The result is the request sent, the raised error or
returned wrapper, and the client state after the call. -/
def create_company (api : BillyAPI) (processor_key : String) (resp : Response) :
    Request × Except BillyExc Resource × BillyAPI :=
  let req : Request :=
    ⟨.post, "/v1/companies", none, [("processor_key", .str processor_key)], none⟩
  match check_response "create_company" resp with
  | .error e => (req, .error e, api)
  | .ok _ =>
    let api' : BillyAPI := { api with api_key := processor_key }
    (req, .ok ⟨.company, api', resp.json⟩, api')

/-- `BillyAPI._get_record` (api.py lines 212-216): authenticated GET to
`/v1/{path_name}/{guid}`, check the response, and wrap `resp.json()` — always
as a `Company`, whatever collection was fetched. -/
def get_record (api : BillyAPI) (guid path_name method_name : String)
    (resp : Response) : Request × Except BillyExc Resource :=
  let req : Request :=
    ⟨.get, "/v1/" ++ path_name ++ "/" ++ guid, auth_args api, [], none⟩
  (req, (check_response method_name resp).map fun _ => ⟨.company, api, resp.json⟩)

/-- `BillyAPI.get_company` (api.py lines 218-227). -/
def get_company (api : BillyAPI) (guid : String) (resp : Response) :
    Request × Except BillyExc Resource :=
  get_record api guid "companies" "get_company" resp

/-- `BillyAPI.get_customer` (api.py lines 229-238). -/
def get_customer (api : BillyAPI) (guid : String) (resp : Response) :
    Request × Except BillyExc Resource :=
  get_record api guid "customers" "get_customer" resp

/-- `BillyAPI.get_plan` (api.py lines 240-249; the source passes the method
name string `get_plans`). -/
def get_plan (api : BillyAPI) (guid : String) (resp : Response) :
    Request × Except BillyExc Resource :=
  get_record api guid "plans" "get_plans" resp

/-- `BillyAPI.get_subscription` (api.py lines 251-260; the source passes the
method name string `get_subscriptions`). -/
def get_subscription (api : BillyAPI) (guid : String) (resp : Response) :
    Request × Except BillyExc Resource :=
  get_record api guid "subscriptions" "get_subscriptions" resp

/-- A Python `datetime` as `Plan.subscribe` uses it: the only operation ever
applied is `.isoformat()`, so the model carries that string. -/
structure DateTime where
  iso : String
  deriving DecidableEq, Repr

/-- `Plan.subscribe` (api.py lines 110-133): read `self.guid` (resolved via
`__getattr__`, since `guid` is neither an instance attribute nor a
class-scope name), build the form
dict with `plan_guid` and `customer_guid` always present, add each optional
field only when the argument `is not None` (`started_at` as
`started_at.isoformat()`), POST authenticated to `/v1/subscriptions`, check
the response and wrap `resp.json()` in a `Subscription`. -/
def Plan.subscribe (plan : Resource) (customer_guid : Json)
    (payment_uri amount : Option Json) (started_at : Option DateTime)
    (resp : Response) : Except PyErr (Request × Resource) :=
  match plan.getattr "guid" with
  | .error e => .error e
  | .ok g =>
    let data : JsonObj := [("plan_guid", g), ("customer_guid", customer_guid)]
    let data := match payment_uri with
      | some p => data ++ [("payment_uri", p)]
      | none => data
    let data := match amount with
      | some a => data ++ [("amount", a)]
      | none => data
    let data := match started_at with
      | some t => data ++ [("started_at", .str t.iso)]
      | none => data
    let req : Request := ⟨.post, "/v1/subscriptions", auth_args plan.api, data, none⟩
    match check_response "subscribe" resp with
    | .error e => .error (.billy e)
    | .ok _ => .ok (req, ⟨.subscription, plan.api, resp.json⟩)

/-- `Subscription.unsubscribe` (api.py lines 141-153): POST authenticated to
`/v1/subscriptions/{self.guid}/cancel`; `if prorated_refund:` adds the field
as `str(int(prorated_refund))` — `"1"` for `True`, and nothing at all when
falsy; `if refund_amount:` adds the field only when the value is truthy;
returns a fresh `Subscription` wrapping `resp.json()`. -/
def Subscription.unsubscribe (sub : Resource) (prorated_refund : Bool)
    (refund_amount : Json) (resp : Response) : Except PyErr (Request × Resource) :=
  match sub.getattr "guid" with
  | .error e => .error e
  | .ok g =>
    let data : JsonObj := if prorated_refund then [("prorated_refund", .str "1")] else []
    let data := if refund_amount.truthy then data ++ [("refund_amount", refund_amount)] else data
    let req : Request :=
      ⟨.post, "/v1/subscriptions/" ++ g.pyStr ++ "/cancel", auth_args sub.api, data, none⟩
    match check_response "unsubscribe" resp with
    | .error e => .error (.billy e)
    | .ok _ => .ok (req, ⟨.subscription, sub.api, resp.json⟩)

/-- One page of a list endpoint's response: the server-echoed `offset` and
`limit` and the page's `items`. -/
structure Page where
  offset : Nat
  limit : Nat
  items : List JsonObj
  deriving DecidableEq, Repr

/-- Modelled from the spec: the Pagination Helper (spec §4.4) is part of this
repository but absent from the sources at hand (only its tests exist), so it
is transcribed from the spec's words — the first GET omits offset/limit
entirely; each page's `items` is accumulated; iteration stops when a page's
`items` is empty; the next request's offset is the previous response's
`offset + limit` with that response's `limit`, fetched eagerly.  The server
is modelled as the list of pages it returns, one per request, in order;
`none` means the server list ran out before an empty page ended the loop. -/
def paginate (params : Option (Nat × Nat)) :
    List Page → Option (List (Option (Nat × Nat)) × List JsonObj)
  | [] => none
  | page :: rest =>
    if page.items = [] then some ([params], [])
    else
      match paginate (some (page.offset + page.limit, page.limit)) rest with
      | none => none
      | some (reqs, items) => some (params :: reqs, page.items ++ items)

/-- Modelled from the spec: a list operation issues its GETs against the
collection path with the pagination parameters and wraps every accumulated
item in the entity view matching the collection (spec §4.2, §4.4). -/
def list_records (kind : RKind) (api : BillyAPI) (path_name : String)
    (pages : List Page) : Option (List Request × List Resource) :=
  match paginate none pages with
  | none => none
  | some (reqs, items) =>
    some (reqs.map fun q => ⟨.get, "/v1/" ++ path_name, auth_args api, [], q⟩,
          items.map fun j => ⟨kind, api, j⟩)

/-- Modelled from the spec: `list_customers` (spec §4.2). -/
def list_customers (api : BillyAPI) (pages : List Page) :
    Option (List Request × List Resource) :=
  list_records .customer api "customers" pages

/-- Modelled from the spec: `list_plans` (spec §4.2). -/
def list_plans (api : BillyAPI) (pages : List Page) :
    Option (List Request × List Resource) :=
  list_records .plan api "plans" pages

/-- Modelled from the spec: `list_subscriptions` (spec §4.2). -/
def list_subscriptions (api : BillyAPI) (pages : List Page) :
    Option (List Request × List Resource) :=
  list_records .subscription api "subscriptions" pages

/-- The items of the pages up to, and excluding, the first empty page:
what eager pagination should accumulate. -/
def itemsUntilEmpty : List Page → List JsonObj
  | [] => []
  | p :: ps => if p.items = [] then [] else p.items ++ itemsUntilEmpty ps

/-- Each request after the first carries the previous page's
`offset + limit` as offset and that page's `limit` as limit. -/
def advances : List (Option (Nat × Nat)) → List Page → Prop
  | _ :: q :: qs, p :: ps =>
    q = some (p.offset + p.limit, p.limit) ∧ advances (q :: qs) ps
  | _ :: _ :: _, [] => False
  | _, _ => True

/-- A concrete client, as in the test fixtures. -/
def apiK : BillyAPI := ⟨"MOCK_API_KEY", "http://localhost"⟩

/-- A concrete 200 response whose body is the single field `guid = "X"`. -/
def r200X : Response := ⟨200, "", [("guid", Json.str "X")]⟩

/-- A concrete server returning pages of sizes 2, 2, 1, 0 under standard
offset/limit pagination with page size 2. -/
def pagesDemo : List Page :=
  [⟨0, 2, [[("guid", Json.str "G1")], [("guid", Json.str "G2")]]⟩,
   ⟨2, 2, [[("guid", Json.str "G3")], [("guid", Json.str "G4")]]⟩,
   ⟨4, 2, [[("guid", Json.str "G5")]]⟩,
   ⟨6, 2, []⟩]

/-- The pagination parameters of the four GETs expected against `pagesDemo`:
offsets unset, 2, 4, 6. -/
def demoQueries : List (Option (Nat × Nat)) :=
  [none, some (2, 2), some (4, 2), some (6, 2)]

/-- The five item bodies expected from `pagesDemo`, in server order. -/
def demoItems : List JsonObj :=
  [[("guid", Json.str "G1")], [("guid", Json.str "G2")], [("guid", Json.str "G3")],
   [("guid", Json.str "G4")], [("guid", Json.str "G5")]]

/-- Claim C5: for every operation and every HTTP response, a 200 status
raises no error; a 404 raises `BillyNotFoundError`; any other non-200 status
raises `BillyError`; the not-found error class is a subclass of the generic
error class, and both errors carry the method name (in the message), the
numeric status code, and the raw response body. -/
theorem check_response_classification (m : String) (resp : Response) :
    (resp.status_code = 200 → check_response m resp = .ok ()) ∧
    (resp.status_code = 404 →
      check_response m resp = .error ⟨.billyNotFoundError,
        "No such record for " ++ m ++ " with code " ++ toString resp.status_code
          ++ ", msg" ++ resp.content, resp.status_code, resp.content⟩) ∧
    (resp.status_code ≠ 200 → resp.status_code ≠ 404 →
      check_response m resp = .error ⟨.billyError,
        "Failed to process " ++ m ++ " with code " ++ toString resp.status_code
          ++ ", msg " ++ resp.content, resp.status_code, resp.content⟩) ∧
    ExcClass.billyNotFoundError.isSubclassOf .billyError = true := by
  refine ⟨?_, ?_, ?_, by decide⟩
  · intro h
    simp [check_response, requests_codes_ok, requests_codes_not_found, h]
  · intro h
    simp [check_response, requests_codes_ok, requests_codes_not_found, h]
  · intro h1 h2
    simp [check_response, requests_codes_ok, requests_codes_not_found, h1, h2]

/-- Witness for `check_response_classification` at concrete responses. -/
theorem check_response_classification_witness :
    check_response "get_company" ⟨200, "", []⟩ = .ok () ∧
    check_response "get_company" ⟨404, "Not found", []⟩ =
      .error ⟨.billyNotFoundError,
        "No such record for get_company with code 404, msgNot found",
        404, "Not found"⟩ ∧
    check_response "create_company" ⟨503, "Server error", []⟩ =
      .error ⟨.billyError,
        "Failed to process create_company with code 503, msg Server error",
        503, "Server error"⟩ :=
  ⟨(check_response_classification "get_company" ⟨200, "", []⟩).1 (by decide),
   (check_response_classification "get_company" ⟨404, "Not found", []⟩).2.1 (by decide),
   (check_response_classification "create_company" ⟨503, "Server error", []⟩).2.2.1
     (by decide) (by decide)⟩

/-- Claim C6 as stated is false on the code: when the field mapping itself
binds the key `api`, attribute access returns the client back-reference set
by `__init__`, not the mapping's value, because instance attributes take
precedence over `__getattr__`. -/
theorem resource_attr_api_shadowed :
    assoc [("api", Json.str "X")] "api" = some (Json.str "X") ∧
    Resource.attribute ⟨.resource, ⟨"KEY", "E"⟩, [("api", Json.str "X")]⟩ "api"
      ≠ .ok (.json (Json.str "X")) := by decide

/-- Claim C6 (amended): for every key that is not shadowed by an attribute
of the instance or the class — the instance attribute names `api` and
`json_data`, the class-defined methods and constants, and dunder names
resolved in class scope — reading a key of the mapping as an attribute
yields the mapping's value for it, and reading such an unshadowed key absent
from the mapping raises `AttributeError` (not the caught `KeyError`). -/
theorem resource_attr_nonreserved (r : Resource) (key : String)
    (h1 : key ≠ "api") (h2 : key ≠ "json_data")
    (h3 : classScope r.kind key = false) :
    (∀ v, assoc r.json_data key = some v → r.attribute key = .ok (.json v)) ∧
    (assoc r.json_data key = none → r.attribute key = .error .attributeError) := by
  constructor
  · intro v hv
    simp [Resource.attribute, Resource.getattr, h1, h2, h3, hv, Except.map]
  · intro hv
    simp [Resource.attribute, Resource.getattr, h1, h2, h3, hv, Except.map]

/-- Witness for `resource_attr_nonreserved` on a concrete mapping, using a
Plan view so the class-scope side conditions are exercised on the richest
class. -/
theorem resource_attr_nonreserved_witness :
    Resource.attribute ⟨.plan, ⟨"K", "E"⟩, [("guid", Json.str "value")]⟩ "guid"
      = .ok (.json (Json.str "value")) ∧
    Resource.attribute ⟨.plan, ⟨"K", "E"⟩, [("guid", Json.str "value")]⟩ "no_such_thing"
      = .error .attributeError :=
  ⟨(resource_attr_nonreserved ⟨.plan, ⟨"K", "E"⟩, [("guid", Json.str "value")]⟩ "guid"
      (by decide) (by decide) (by decide)).1 (Json.str "value") (by decide),
   (resource_attr_nonreserved ⟨.plan, ⟨"K", "E"⟩, [("guid", Json.str "value")]⟩
      "no_such_thing" (by decide) (by decide) (by decide)).2 (by decide)⟩

/-- Claim C10: reading the attributes `api` and `json_data` of any Resource
view always yields the client back-reference and the raw mapping, even when
the mapping itself binds those keys; the colliding mapping entries are
unreachable through attribute access. -/
theorem resource_reserved_attrs (r : Resource) (v : Json) :
    r.attribute "api" = .ok (.ref r.api) ∧
    r.attribute "json_data" = .ok (.dict r.json_data) ∧
    (assoc r.json_data "api" = some v → r.attribute "api" ≠ .ok (.json v)) ∧
    (assoc r.json_data "json_data" = some v →
      r.attribute "json_data" ≠ .ok (.json v)) := by
  refine ⟨by simp [Resource.attribute], by simp [Resource.attribute], ?_, ?_⟩ <;>
    intro hv hc <;> simp [Resource.attribute] at hc

/-- Witness for `resource_reserved_attrs` on a mapping that binds `api`. -/
theorem resource_reserved_attrs_witness :
    Resource.attribute ⟨.resource, ⟨"K", "E"⟩, [("api", Json.str "X")]⟩ "api"
      = .ok (.ref ⟨"K", "E"⟩) ∧
    Resource.attribute ⟨.resource, ⟨"K", "E"⟩, [("api", Json.str "X")]⟩ "api"
      ≠ .ok (.json (Json.str "X")) :=
  ⟨(resource_reserved_attrs ⟨.resource, ⟨"K", "E"⟩, [("api", Json.str "X")]⟩
      (Json.str "X")).1,
   (resource_reserved_attrs ⟨.resource, ⟨"K", "E"⟩, [("api", Json.str "X")]⟩
      (Json.str "X")).2.2.1 (by decide)⟩

/-- Claim C1 fails on the code: `_get_record` wraps every decoded body in a
`Company` view, so at the failing inputs `get_customer`, `get_plan` and
`get_subscription` on a 200 response each return a Company view of the body,
not a Customer, Plan or Subscription view. -/
theorem getters_wrap_company_kind :
    (get_customer apiK "X" r200X).2 = .ok ⟨.company, apiK, r200X.json⟩ ∧
    (get_plan apiK "X" r200X).2 = .ok ⟨.company, apiK, r200X.json⟩ ∧
    (get_subscription apiK "X" r200X).2 = .ok ⟨.company, apiK, r200X.json⟩ ∧
    (get_company apiK "X" r200X).2 = .ok ⟨.company, apiK, r200X.json⟩ ∧
    RKind.company ≠ RKind.customer ∧
    RKind.company ≠ RKind.plan ∧
    RKind.company ≠ RKind.subscription := by decide

/-- Claim C2 fails as stated: after a successful `create_company` the active
credential is the processor key, not the identifier (`guid`) returned by the
server — here the body's guid is `"G"` but the credential ends up `"P"`. -/
theorem create_company_credential_not_guid :
    assoc (⟨200, "", [("guid", Json.str "G")]⟩ : Response).json "guid"
      = some (Json.str "G") ∧
    (create_company ⟨"OLD", "http://localhost"⟩ "P"
        ⟨200, "", [("guid", Json.str "G")]⟩).2.2.api_key ≠ "G" := by decide

/-- Claim C2 (amended): `create_company(processor_key)` POSTs the processor
key as the sole form field, without authentication, to `/v1/companies`; on a
200 response it adopts the processor key (not the returned identifier) as the
client's active credential and returns a Company view of the response body. -/
theorem create_company_spec (api : BillyAPI) (pk : String) (resp : Response) :
    (create_company api pk resp).1 =
      ⟨.post, "/v1/companies", none, [("processor_key", Json.str pk)], none⟩ ∧
    (resp.status_code = 200 →
      (create_company api pk resp).2.1 =
        .ok ⟨.company, { api with api_key := pk }, resp.json⟩ ∧
      (create_company api pk resp).2.2.api_key = pk) := by
  constructor
  · unfold create_company
    cases h : check_response "create_company" resp <;> simp
  · intro h
    have hok : check_response "create_company" resp = .ok () := by
      simp [check_response, requests_codes_ok, h]
    unfold create_company
    simp [hok]

/-- Witness for `create_company_spec` at a concrete 200 response. -/
theorem create_company_spec_witness :
    (create_company ⟨"OLD", "http://localhost"⟩ "P"
        ⟨200, "", [("guid", Json.str "G")]⟩).2.2.api_key = "P" :=
  ((create_company_spec ⟨"OLD", "http://localhost"⟩ "P"
      ⟨200, "", [("guid", Json.str "G")]⟩).2 (by decide)).2

/-- Claim C3: for every processor key `pk`, `create_company` given a 200
response with body `{"guid": g}` returns a Company view whose `guid`
attribute equals `g`, and afterwards the client's active credential is
`pk`. -/
theorem create_company_guid_and_credential (api : BillyAPI) (pk g : String)
    (resp : Response) (h200 : resp.status_code = 200)
    (hbody : resp.json = [("guid", Json.str g)]) :
    ∃ c : Resource, (create_company api pk resp).2.1 = .ok c ∧
      c.kind = .company ∧
      c.attribute "guid" = .ok (.json (.str g)) ∧
      (create_company api pk resp).2.2.api_key = pk := by
  have hok : check_response "create_company" resp = .ok () := by
    simp [check_response, requests_codes_ok, h200]
  have hcs : classScope RKind.company "guid" = false := by decide
  refine ⟨⟨.company, { api with api_key := pk }, resp.json⟩, ?_, rfl, ?_, ?_⟩
  · unfold create_company
    simp [hok]
  · simp [Resource.attribute, Resource.getattr, hcs, hbody, assoc, Except.map]
  · unfold create_company
    simp [hok]

/-- Witness for `create_company_guid_and_credential` at a concrete input. -/
theorem create_company_guid_and_credential_witness :
    ∃ c : Resource,
      (create_company ⟨"OLD", "http://localhost"⟩ "MOCK_PROCESSOR_KEY"
          ⟨200, "", [("guid", Json.str "MOCK_COMPANY_GUID")]⟩).2.1 = .ok c ∧
      c.kind = .company ∧
      c.attribute "guid" = .ok (.json (.str "MOCK_COMPANY_GUID")) ∧
      (create_company ⟨"OLD", "http://localhost"⟩ "MOCK_PROCESSOR_KEY"
          ⟨200, "", [("guid", Json.str "MOCK_COMPANY_GUID")]⟩).2.2.api_key
        = "MOCK_PROCESSOR_KEY" :=
  create_company_guid_and_credential ⟨"OLD", "http://localhost"⟩
    "MOCK_PROCESSOR_KEY" "MOCK_COMPANY_GUID"
    ⟨200, "", [("guid", Json.str "MOCK_COMPANY_GUID")]⟩ (by decide) (by decide)

/-- Claim C9: `create_company` is atomic with respect to the credential — on
any non-200 response it raises and leaves the whole client state (so in
particular `api_key`) exactly as it was before the call, because
`_check_response` raises before the assignment `self.api_key =
processor_key` runs. -/
theorem create_company_atomic_on_failure (api : BillyAPI) (pk : String)
    (resp : Response) (h : resp.status_code ≠ 200) :
    (∃ e, (create_company api pk resp).2.1 = .error e) ∧
    (create_company api pk resp).2.2 = api := by
  have herr : ∃ e, check_response "create_company" resp = .error e := by
    unfold check_response requests_codes_ok requests_codes_not_found
    simp [h]
    split <;> exact ⟨_, rfl⟩
  obtain ⟨e, he⟩ := herr
  unfold create_company
  simp [he]

/-- Witness for `create_company_atomic_on_failure` at a 503 response. -/
theorem create_company_atomic_on_failure_witness :
    (∃ e, (create_company ⟨"OLD", "http://localhost"⟩ "MOCK_PROCESSOR_KEY"
        ⟨503, "Server error", []⟩).2.1 = .error e) ∧
    (create_company ⟨"OLD", "http://localhost"⟩ "MOCK_PROCESSOR_KEY"
        ⟨503, "Server error", []⟩).2.2 = ⟨"OLD", "http://localhost"⟩ :=
  create_company_atomic_on_failure ⟨"OLD", "http://localhost"⟩
    "MOCK_PROCESSOR_KEY" ⟨503, "Server error", []⟩ (by decide)

/-- Claim C7: `Plan.subscribe` POSTs to `/v1/subscriptions` a form body that
always contains `plan_guid` (the plan's own guid) and `customer_guid`; each
of `payment_uri`, `amount` and `started_at` appears in the body exactly when
it was provided, and `started_at`, when provided, is serialized as its
ISO-8601 string. -/
theorem subscribe_form_fields (plan : Resource) (g cg : Json)
    (pu am : Option Json) (sa : Option DateTime) (resp : Response)
    (hg : plan.getattr "guid" = .ok g) (h200 : resp.status_code = 200) :
    ∃ req : Request, Plan.subscribe plan cg pu am sa resp =
        .ok (req, ⟨.subscription, plan.api, resp.json⟩) ∧
      req.method = .post ∧
      req.path = "/v1/subscriptions" ∧
      req.auth = auth_args plan.api ∧
      assoc req.data "plan_guid" = some g ∧
      assoc req.data "customer_guid" = some cg ∧
      assoc req.data "payment_uri" = pu ∧
      assoc req.data "amount" = am ∧
      assoc req.data "started_at" = (sa.map fun t => Json.str t.iso) := by
  have hok : check_response "subscribe" resp = .ok () := by
    simp [check_response, requests_codes_ok, h200]
  unfold Plan.subscribe
  rw [hg]
  cases pu <;> cases am <;> cases sa <;>
    simp only [hok] <;>
    exact ⟨_, rfl, rfl, rfl, rfl, by simp [assoc], by simp [assoc],
      by simp [assoc], by simp [assoc], by simp [assoc, Option.map]⟩

/-- Witness for `subscribe_form_fields`: all optional fields provided, with
a concrete timestamp. -/
theorem subscribe_form_fields_witness :
    ∃ req : Request,
      Plan.subscribe ⟨.plan, apiK, [("guid", Json.str "MOCK_PLAN_GUID")]⟩
          (Json.str "MOCK_CUSTOMER_GUID") (some (Json.str "MOCK_PAYMENT_URI"))
          (some (Json.str "55.66")) (some ⟨"2013-08-16T00:00:00"⟩)
          ⟨200, "", [("guid", Json.str "MOCK_SUBSCRIPTION_GUID")]⟩ =
        .ok (req, ⟨.subscription, apiK, [("guid", Json.str "MOCK_SUBSCRIPTION_GUID")]⟩) ∧
      req.method = .post ∧
      req.path = "/v1/subscriptions" ∧
      req.auth = some ("MOCK_API_KEY", "") ∧
      assoc req.data "plan_guid" = some (Json.str "MOCK_PLAN_GUID") ∧
      assoc req.data "customer_guid" = some (Json.str "MOCK_CUSTOMER_GUID") ∧
      assoc req.data "payment_uri" = some (Json.str "MOCK_PAYMENT_URI") ∧
      assoc req.data "amount" = some (Json.str "55.66") ∧
      assoc req.data "started_at" = some (Json.str "2013-08-16T00:00:00") :=
  subscribe_form_fields ⟨.plan, apiK, [("guid", Json.str "MOCK_PLAN_GUID")]⟩
    (Json.str "MOCK_PLAN_GUID") (Json.str "MOCK_CUSTOMER_GUID")
    (some (Json.str "MOCK_PAYMENT_URI")) (some (Json.str "55.66"))
    (some ⟨"2013-08-16T00:00:00"⟩)
    ⟨200, "", [("guid", Json.str "MOCK_SUBSCRIPTION_GUID")]⟩
    (by decide) (by decide)

/-- Claim C8: `Subscription.unsubscribe` POSTs to
`/v1/subscriptions/{guid}/cancel`; the body contains `prorated_refund` with
value `"1"` exactly when the flag is true, contains `refund_amount` exactly
when that argument is truthy, and the call returns a fresh Subscription view
wrapping the response body. -/
theorem unsubscribe_form_fields (sub : Resource) (g ra : Json) (pr : Bool)
    (resp : Response) (hg : sub.getattr "guid" = .ok g)
    (h200 : resp.status_code = 200) :
    ∃ req : Request, Subscription.unsubscribe sub pr ra resp =
        .ok (req, ⟨.subscription, sub.api, resp.json⟩) ∧
      req.method = .post ∧
      req.path = "/v1/subscriptions/" ++ g.pyStr ++ "/cancel" ∧
      req.auth = auth_args sub.api ∧
      assoc req.data "prorated_refund" = (if pr then some (Json.str "1") else none) ∧
      assoc req.data "refund_amount" = (if ra.truthy then some ra else none) := by
  have hok : check_response "unsubscribe" resp = .ok () := by
    simp [check_response, requests_codes_ok, h200]
  unfold Subscription.unsubscribe
  rw [hg]
  cases pr <;> by_cases hra : ra.truthy = true <;>
    simp only [hok, hra, Bool.false_eq_true, if_true, if_false,
      Bool.not_eq_true] <;>
    exact ⟨_, rfl, rfl, rfl, rfl, by simp [assoc], by simp [assoc]⟩

/-- Witness for `unsubscribe_form_fields`: `prorated_refund=True` with no
refund amount submits exactly the field `prorated_refund="1"`. -/
theorem unsubscribe_form_fields_witness :
    ∃ req : Request,
      Subscription.unsubscribe
          ⟨.subscription, apiK, [("guid", Json.str "MOCK_SUBSCRIPTION_GUID")]⟩
          true Json.null
          ⟨200, "", [("guid", Json.str "MOCK_SUBSCRIPTION_GUID"),
                     ("canceled", Json.jbool true)]⟩ =
        .ok (req, ⟨.subscription, apiK,
          [("guid", Json.str "MOCK_SUBSCRIPTION_GUID"),
           ("canceled", Json.jbool true)]⟩) ∧
      req.method = .post ∧
      req.path = "/v1/subscriptions/MOCK_SUBSCRIPTION_GUID/cancel" ∧
      req.auth = some ("MOCK_API_KEY", "") ∧
      assoc req.data "prorated_refund" = some (Json.str "1") ∧
      assoc req.data "refund_amount" = none :=
  unsubscribe_form_fields
    ⟨.subscription, apiK, [("guid", Json.str "MOCK_SUBSCRIPTION_GUID")]⟩
    (Json.str "MOCK_SUBSCRIPTION_GUID") Json.null true
    ⟨200, "", [("guid", Json.str "MOCK_SUBSCRIPTION_GUID"),
               ("canceled", Json.jbool true)]⟩
    (by decide) (by decide)

/-- Helper for the pagination claim: whenever the helper returns, the first
request carries the starting parameters, every later request advances by the
previous page's `offset + limit` with that page's `limit`, and the result is
the concatenation of all pages' items up to the first empty page. -/
theorem paginate_shape (pages : List Page) :
    ∀ (params : Option (Nat × Nat)) (reqs : List (Option (Nat × Nat)))
      (items : List JsonObj),
      paginate params pages = some (reqs, items) →
      reqs.head? = some params ∧ advances reqs pages ∧
        items = itemsUntilEmpty pages := by
  induction pages with
  | nil =>
    intro params reqs items h
    simp [paginate] at h
  | cons p ps ih =>
    intro params reqs items h
    unfold paginate at h
    by_cases hp : p.items = []
    · rw [if_pos hp] at h
      obtain ⟨h1, h2⟩ : reqs = [params] ∧ items = [] := by
        simpa [eq_comm] using h
      subst h1; subst h2
      exact ⟨rfl, trivial, by simp [itemsUntilEmpty, hp]⟩
    · rw [if_neg hp] at h
      cases hrec : paginate (some (p.offset + p.limit, p.limit)) ps with
      | none => rw [hrec] at h; simp at h
      | some pr =>
        obtain ⟨reqs', items'⟩ := pr
        rw [hrec] at h
        obtain ⟨h1, h2⟩ : params :: reqs' = reqs ∧ p.items ++ items' = items := by
          simpa using h
        obtain ⟨hh, ha, hi⟩ := ih (some (p.offset + p.limit, p.limit)) reqs' items' hrec
        subst h1; subst h2
        refine ⟨rfl, ?_, by simp [itemsUntilEmpty, hp, hi]⟩
        cases reqs' with
        | nil => simp at hh
        | cons q qs =>
          simp at hh
          exact ⟨hh, ha⟩

/-- Claim C4: the list operations paginate eagerly — against pages of sizes
2, 2, 1, 0 each of `list_customers`, `list_plans` and `list_subscriptions`
issues exactly 4 GETs to its collection path with offsets unset, 2, 4, 6 and
returns the 5 items in server order, each wrapped in the matching entity
view; and in general the first request omits offset/limit, each subsequent
offset is the previous response's `offset + limit`, iteration stops at the
first empty page, and the result is the concatenation of the pages' items. -/
theorem list_records_pagination :
    (list_customers apiK pagesDemo =
      some (demoQueries.map fun q => ⟨.get, "/v1/customers", auth_args apiK, [], q⟩,
            demoItems.map fun j => ⟨.customer, apiK, j⟩)) ∧
    (list_plans apiK pagesDemo =
      some (demoQueries.map fun q => ⟨.get, "/v1/plans", auth_args apiK, [], q⟩,
            demoItems.map fun j => ⟨.plan, apiK, j⟩)) ∧
    (list_subscriptions apiK pagesDemo =
      some (demoQueries.map fun q => ⟨.get, "/v1/subscriptions", auth_args apiK, [], q⟩,
            demoItems.map fun j => ⟨.subscription, apiK, j⟩)) ∧
    (demoQueries.length = 4 ∧ demoItems.length = 5) ∧
    ∀ (params : Option (Nat × Nat)) (pages : List Page)
      (reqs : List (Option (Nat × Nat))) (items : List JsonObj),
      paginate params pages = some (reqs, items) →
      reqs.head? = some params ∧ advances reqs pages ∧
        items = itemsUntilEmpty pages :=
  ⟨by decide, by decide, by decide, by decide,
   fun params pages reqs items h => paginate_shape pages params reqs items h⟩

/-- Witness for `list_records_pagination` on the concrete 2,2,1,0 server. -/
theorem list_records_pagination_witness :
    demoQueries.head? = some none ∧ advances demoQueries pagesDemo ∧
      demoItems = itemsUntilEmpty pagesDemo :=
  list_records_pagination.2.2.2.2 none pagesDemo demoQueries demoItems (by decide)
